import Mathlib

/-!
Verification of the image-search client (src/app/page.tsx and
src/unnamed/part_000) against its natural-language specification, plus a
spec-modelled embedding of the backing similarity engine (vector index and
cosine ranking), which the specification describes but whose code is not part
of the visible repository.

The HTTP layer of the client is embedded shallowly: each TypeScript API
function is split into a pure request constructor (the URL, method and body it
passes to fetch) and a pure response transformer (what it does with the
fetch response).  The browser runtime (fetch, FormData, Response) is modelled
by explicit structures.
-/

/- ## Shared data model (both source files declare identical interfaces) -/

/-- A browser File value: its name and raw bytes. -/
structure FileV where
  name : String
  bytes : List Nat
deriving DecidableEq, Repr

/-- HTTP method of a fetch call.  A fetch with no options is a GET. -/
inductive HttpMethod where
  | GET
  | POST
deriving DecidableEq, Repr

/-- A value appended to a FormData object: a File or a plain string. -/
inductive FormValue where
  | file (f : FileV)
  | text (s : String)
deriving DecidableEq, Repr

/-- Body of a fetch call: absent, or a multipart FormData with ordered
fields. -/
inductive HttpBody where
  | empty
  | formData (fields : List (String × FormValue))
deriving DecidableEq, Repr

/-- One outgoing HTTP request as constructed by the client. -/
structure Request where
  url : String
  method : HttpMethod
  body : HttpBody
deriving DecidableEq, Repr

/-- A fetch Response as observed by the client: the ok flag, the body read
as text, the body parsed as JSON (already decoded to its TypeScript-declared
shape), and the body read as a binary blob. -/
structure JsResponse (α : Type) where
  ok : Bool
  textBody : String
  jsonBody : α
  blobBody : List Nat

/-- The Image interface of both source files: id, filename, and an optional
description (marked with a question mark in the TypeScript). -/
structure Image where
  id : Int
  filename : String
  description : Option String
deriving DecidableEq, Repr

/-- The SearchResult interface: an Image plus a similarity number. -/
structure SearchResult where
  id : Int
  filename : String
  description : Option String
  similarity : ℝ

/-- The API base URL constant, declared identically in both source files. -/
def API_BASE : String := "http://localhost:5000"

/- ## The encodeURIComponent builtin (ECMA-262 model)

The client calls the JavaScript builtin encodeURIComponent on the query
text.  It leaves ASCII alphanumerics and the marks - _ . ! ~ * ' ( )
unescaped and percent-encodes every other character's UTF-8 bytes with
uppercase hexadecimal digits. -/

/-- Is the code point one of the unescaped URI marks - _ . ! ~ * ' ( ) ? -/
def isURIMark (n : Nat) : Bool :=
  n == 45 || n == 95 || n == 46 || n == 33 || n == 126 ||
    n == 42 || n == 39 || n == 40 || n == 41

/-- Characters encodeURIComponent leaves unescaped. -/
def isURIUnescaped (c : Char) : Bool :=
  c.isAlphanum || isURIMark c.toNat

/-- UTF-8 bytes of a unicode scalar value. -/
def utf8Bytes (c : Char) : List Nat :=
  let n := c.toNat
  if n < 128 then [n]
  else if n < 2048 then
    [192 ||| (n >>> 6), 128 ||| (n &&& 63)]
  else if n < 65536 then
    [224 ||| (n >>> 12), 128 ||| ((n >>> 6) &&& 63), 128 ||| (n &&& 63)]
  else
    [240 ||| (n >>> 18), 128 ||| ((n >>> 12) &&& 63),
      128 ||| ((n >>> 6) &&& 63), 128 ||| (n &&& 63)]

/-- Uppercase hexadecimal digit. -/
def hexDigitChar (n : Nat) : Char :=
  if n < 10 then Char.ofNat (48 + n) else Char.ofNat (55 + n)

/-- Percent-escape of one byte, uppercase hex. -/
def byteHex (b : Nat) : String :=
  String.mk ['%', hexDigitChar (b / 16), hexDigitChar (b % 16)]

/-- The encodeURIComponent builtin. -/
def encodeURIComponent (s : String) : String :=
  s.data.foldl
    (fun acc c =>
      acc ++ (if isURIUnescaped c then String.singleton c
              else String.join ((utf8Bytes c).map byteHex)))
    ""

/-- The endpoint a request URL targets: the first path segment after
API_BASE and its slash, up to (excluding) the first question mark or
slash. -/
def endpointOf (url : String) : String :=
  String.mk ((url.data.drop (API_BASE.length + 1)).takeWhile
    (fun c => !(c == '?' || c == '/')))

/- ## API layer of src/app/page.tsx -/

namespace PageTsx

/-- Utility from page.tsx: on a non-ok response, read the body text and throw
it (or a default message when it is empty); otherwise return the parsed
JSON. -/
def handleResponse {α : Type} (resp : JsResponse α) : Except String α :=
  if !resp.ok then
    Except.error (if resp.textBody = "" then "An error occurred" else resp.textBody)
  else
    Except.ok resp.jsonBody

/-- The single fetch performed by fetchImages in page.tsx. -/
def fetchImagesRequest : Request :=
  { url := API_BASE ++ "/list_images", method := .GET, body := .empty }

/-- What fetchImages does with the response: delegates to handleResponse. -/
def fetchImagesHandle (resp : JsResponse (List Image)) : Except String (List Image) :=
  handleResponse resp

/-- The single fetch performed by searchImages in page.tsx; topK defaults
to 5 when the caller omits it. -/
def searchImagesRequest (query : String) (topK : Option Nat) : Request :=
  { url := API_BASE ++ "/search?query=" ++ encodeURIComponent query ++
      "&top_k=" ++ toString (topK.getD 5),
    method := .GET, body := .empty }

/-- What searchImages does with the response: delegates to handleResponse. -/
def searchImagesHandle (resp : JsResponse (List SearchResult)) :
    Except String (List SearchResult) :=
  handleResponse resp

/-- The single fetch performed by addImage in page.tsx: a POST whose body is
a FormData with the image file under field image and the description text
under field description, in that order. -/
def addImageRequest (file : FileV) (description : String) : Request :=
  { url := API_BASE ++ "/add_image", method := .POST,
    body := .formData [("image", FormValue.file file),
                       ("description", FormValue.text description)] }

/-- What addImage does with the response: delegates to handleResponse. -/
def addImageHandle (resp : JsResponse Image) : Except String Image :=
  handleResponse resp

/-- The single fetch performed by downloadImage in page.tsx. -/
def downloadImageRequest (imageId : Int) : Request :=
  { url := API_BASE ++ "/download_image/" ++ toString imageId,
    method := .GET, body := .empty }

/-- What downloadImage does with the response: on a non-ok response it
throws the body text (or a fixed fallback when empty); otherwise it returns
the body as a blob.  It never reads the JSON view of the body, hence the
polymorphism in the JSON type. -/
def downloadImageHandle {α : Type} (resp : JsResponse α) : Except String (List Nat) :=
  if !resp.ok then
    Except.error (if resp.textBody = "" then "Failed to download image" else resp.textBody)
  else
    Except.ok resp.blobBody

end PageTsx

/- ## API layer of src/unnamed/part_000 (transcribed separately from that
file; lines 44-83) -/

namespace Part000

/-- Utility from part_000 lines 44-50. -/
def handleResponse {α : Type} (resp : JsResponse α) : Except String α :=
  if !resp.ok then
    Except.error (if resp.textBody = "" then "An error occurred" else resp.textBody)
  else
    Except.ok resp.jsonBody

/-- The single fetch performed by fetchImages in part_000. -/
def fetchImagesRequest : Request :=
  { url := API_BASE ++ "/list_images", method := .GET, body := .empty }

/-- Response handling of fetchImages in part_000. -/
def fetchImagesHandle (resp : JsResponse (List Image)) : Except String (List Image) :=
  handleResponse resp

/-- The single fetch performed by searchImages in part_000. -/
def searchImagesRequest (query : String) (topK : Option Nat) : Request :=
  { url := API_BASE ++ "/search?query=" ++ encodeURIComponent query ++
      "&top_k=" ++ toString (topK.getD 5),
    method := .GET, body := .empty }

/-- Response handling of searchImages in part_000. -/
def searchImagesHandle (resp : JsResponse (List SearchResult)) :
    Except String (List SearchResult) :=
  handleResponse resp

/-- The single fetch performed by addImage in part_000. -/
def addImageRequest (file : FileV) (description : String) : Request :=
  { url := API_BASE ++ "/add_image", method := .POST,
    body := .formData [("image", FormValue.file file),
                       ("description", FormValue.text description)] }

/-- Response handling of addImage in part_000. -/
def addImageHandle (resp : JsResponse Image) : Except String Image :=
  handleResponse resp

/-- The single fetch performed by downloadImage in part_000. -/
def downloadImageRequest (imageId : Int) : Request :=
  { url := API_BASE ++ "/download_image/" ++ toString imageId,
    method := .GET, body := .empty }

/-- Response handling of downloadImage in part_000. -/
def downloadImageHandle {α : Type} (resp : JsResponse α) : Except String (List Nat) :=
  if !resp.ok then
    Except.error (if resp.textBody = "" then "Failed to download image" else resp.textBody)
  else
    Except.ok resp.blobBody

end Part000

/- ## Client component state (the ImageSearchApp component, page.tsx lines
75-140 and part_000 lines 85-150)

The two files differ in one load-bearing binding: part_000 imports the real
toast function from sonner (part_000 line 15), while page.tsx declares the
stub constant toast as an empty object cast to any (page.tsx line 17), so in
page.tsx every toast.success or toast.error call is a call of undefined and
throws a TypeError, aborting the rest of the handler.  The handlers are
therefore modelled per file, sequencing the toast call explicitly: a
handler's result is an exception (the thrown TypeError message) or the
updated state with its delivered effects. -/

/-- One entry of the react-query client cache: its query key and whether it
has been marked invalidated. -/
structure CacheEntry where
  key : List String
  invalidated : Bool
deriving DecidableEq, Repr

/-- Placeholder entry used for out-of-range cache reads; its key is empty,
which no invalidation key matches. -/
def noEntry : CacheEntry := { key := [], invalidated := false }

/-- The component's React state together with the react-query cache. -/
structure ClientState where
  searchQueryText : String
  uploadFile : Option FileV
  uploadDescription : String
  cache : List CacheEntry

/-- Side effects the component's handlers emit. -/
inductive Effect where
  | toastSuccess (msg : String)
  | toastError (msg : String)
  | mutateAdd (file : FileV) (description : String)
deriving DecidableEq, Repr

/-- queryClient.invalidateQueries with a given query key: react-query marks
every cached query whose key begins with that key as invalidated; all other
entries are untouched. -/
def invalidateQueries (k : List String) (cache : List CacheEntry) : List CacheEntry :=
  cache.map (fun e => if k.isPrefixOf e.key then { e with invalidated := true } else e)

namespace PageTsx

/-- In page.tsx, toast.success is a property access on the stub constant
toast (page.tsx line 17), i.e. undefined, so calling it throws. -/
def toastSuccessCall (_msg : String) : Except String Effect :=
  Except.error "TypeError: toast.success is not a function"

/-- In page.tsx, toast.error likewise throws on the stub. -/
def toastErrorCall (_msg : String) : Except String Effect :=
  Except.error "TypeError: toast.error is not a function"

/-- The onSuccess handler of addImageMutation in page.tsx (lines 97-102):
first toast.success, then invalidate the images query key, then clear the
upload file and the description.  Because the toast call throws in this
file, the invalidation and resets on the following lines never execute. -/
def addImageOnSuccess (s : ClientState) : Except String (ClientState × List Effect) :=
  match toastSuccessCall "Image added successfully!" with
  | Except.error e => Except.error e
  | Except.ok eff =>
      Except.ok ({ s with cache := invalidateQueries ["images"] s.cache,
                          uploadFile := none,
                          uploadDescription := "" }, [eff])

/-- The handleUpload handler in page.tsx (lines 126-135): with no selected
file it calls toast.error — which throws in this file — and returns;
otherwise it fires the add-image mutation with the selected file and the
current description. -/
def handleUpload (s : ClientState) : Except String (ClientState × List Effect) :=
  match s.uploadFile with
  | none =>
      match toastErrorCall "Please select a file to upload" with
      | Except.error e => Except.error e
      | Except.ok eff => Except.ok (s, [eff])
  | some f => Except.ok (s, [Effect.mutateAdd f s.uploadDescription])

end PageTsx

namespace Part000

/-- In part_000, toast is the real sonner import (line 15): toast.success
delivers the success toast and returns normally. -/
def toastSuccessCall (msg : String) : Except String Effect :=
  Except.ok (Effect.toastSuccess msg)

/-- In part_000, toast.error delivers the error toast and returns
normally. -/
def toastErrorCall (msg : String) : Except String Effect :=
  Except.ok (Effect.toastError msg)

/-- The onSuccess handler of addImageMutation in part_000 (lines 107-112):
toast.success, then invalidate the images query key, then clear the upload
file and the description. -/
def addImageOnSuccess (s : ClientState) : Except String (ClientState × List Effect) :=
  match toastSuccessCall "Image added successfully!" with
  | Except.error e => Except.error e
  | Except.ok eff =>
      Except.ok ({ s with cache := invalidateQueries ["images"] s.cache,
                          uploadFile := none,
                          uploadDescription := "" }, [eff])

/-- The handleUpload handler in part_000 (lines 136-145): with no selected
file it toasts an error and returns; otherwise it fires the add-image
mutation with the selected file and the current description. -/
def handleUpload (s : ClientState) : Except String (ClientState × List Effect) :=
  match s.uploadFile with
  | none =>
      match toastErrorCall "Please select a file to upload" with
      | Except.error e => Except.error e
      | Except.ok eff => Except.ok (s, [eff])
  | some f => Except.ok (s, [Effect.mutateAdd f s.uploadDescription])

end Part000

/-- The enabled flag of searchResultsQuery: the JavaScript double-negation
of the query text, i.e. false exactly on the empty string (identical in
both files). -/
def searchQueryEnabled (s : ClientState) : Bool :=
  !(s.searchQueryText == "")

/-- The automatic fetch of searchResultsQuery: react-query fetches a query
on its own (on mount, key change or invalidation) only when the query is
enabled; the queryFn calls searchImages with the current query text and no
explicit topK (identical in both files; the two files' searchImages agree,
so the PageTsx constructor is used). -/
def autoSearchRequest (s : ClientState) : Option Request :=
  if searchQueryEnabled s then
    some (PageTsx.searchImagesRequest s.searchQueryText none)
  else
    none

/-- The Search button's onClick calls searchResultsQuery.refetch()
(page.tsx line 193, part_000 line 234); react-query's manual refetch runs
the queryFn even when the query is disabled, so a click issues the
searchImages request for the current text unconditionally. -/
def clickSearchRequest (s : ClientState) : Request :=
  PageTsx.searchImagesRequest s.searchQueryText none

/- ## The backing similarity engine (spec sections 3, 4.1 and 8)

The engine's code is not part of the visible repository; the definitions
below are modelled from the specification's words: vectors are fixed-length
sequences of floating-point components (embedded as real numbers), cosine
similarity is dot(q, v) / (norm q * norm v) with similarity 0 when either
norm is zero, and search ranks all stored vectors by descending similarity
with ties broken by ascending id, returning the first k. -/

/-- Modelled from the spec: the dot product of two component sequences. -/
noncomputable def dotp : List ℝ → List ℝ → ℝ
  | [], _ => 0
  | _ :: _, [] => 0
  | a :: v, b :: w => a * b + dotp v w

/-- Modelled from the spec: the L2 norm of a vector. -/
noncomputable def norm2 (v : List ℝ) : ℝ :=
  Real.sqrt (dotp v v)

/-- Modelled from the spec: cosine similarity, with similarity 0 (not an
error) when either norm is zero. -/
noncomputable def cosineSim (v w : List ℝ) : ℝ :=
  if norm2 v = 0 ∨ norm2 w = 0 then 0 else dotp v w / (norm2 v * norm2 w)

/-- Modelled from the spec: a vector index entry, an id paired with its
stored vector (the spec's cached norm field is derivable and omitted). -/
structure IndexEntry where
  id : Int
  vec : List ℝ

/-- Modelled from the spec: the result ordering of search, descending by
similarity with ties broken by ascending id. -/
def resultOrder (a b : Int × ℝ) : Prop :=
  b.2 < a.2 ∨ (a.2 = b.2 ∧ a.1 ≤ b.1)

noncomputable instance : DecidableRel resultOrder :=
  fun _ _ => Classical.dec _

instance : IsTotal (Int × ℝ) resultOrder where
  total a b := by
    rcases lt_trichotomy a.2 b.2 with h | h | h
    · exact Or.inr (Or.inl h)
    · rcases le_total a.1 b.1 with h2 | h2
      · exact Or.inl (Or.inr ⟨h, h2⟩)
      · exact Or.inr (Or.inr ⟨h.symm, h2⟩)
    · exact Or.inl (Or.inl h)

instance : IsTrans (Int × ℝ) resultOrder where
  trans a b c hab hbc := by
    rcases hab with h1 | ⟨h1, h1le⟩ <;> rcases hbc with h2 | ⟨h2, h2le⟩
    · exact Or.inl (h2.trans h1)
    · exact Or.inl (by rw [← h2]; exact h1)
    · exact Or.inl (by rw [h1]; exact h2)
    · exact Or.inr ⟨h1.trans h2, h1le.trans h2le⟩

/-- Modelled from the spec: search computes every stored entry's cosine
similarity to the query, sorts descending by similarity with ties broken by
ascending id, and returns the first k. -/
noncomputable def searchIndex (entries : List IndexEntry) (q : List ℝ) (k : Nat) :
    List (Int × ℝ) :=
  (List.insertionSort resultOrder
    (entries.map (fun e => (e.id, cosineSim q e.vec)))).take k

/- ## Sample values used by witness statements -/

/-- A sample cache holding the images list query and one search query. -/
def sampleCache : List CacheEntry :=
  [{ key := ["images"], invalidated := false },
   { key := ["search", "cat"], invalidated := false }]

/-- A sample component state with no file selected. -/
def sampleState : ClientState :=
  { searchQueryText := "", uploadFile := none, uploadDescription := "d",
    cache := sampleCache }

/-- A sample component state with a non-empty search query. -/
def catState : ClientState :=
  { searchQueryText := "cat", uploadFile := none, uploadDescription := "",
    cache := [] }

/- ## Supporting lemmas -/

/-- The dot product is commutative. -/
lemma dotp_comm (v w : List ℝ) : dotp v w = dotp w v := by
  induction v generalizing w with
  | nil => cases w <;> simp [dotp]
  | cons a v ih => cases w with
    | nil => simp [dotp]
    | cons b w => simp [dotp, ih, mul_comm]

/-- The dot product of a vector with itself is nonnegative. -/
lemma dotp_self_nonneg (v : List ℝ) : 0 ≤ dotp v v := by
  induction v with
  | nil => simp [dotp]
  | cons a v ih => have := mul_self_nonneg a; simp only [dotp]; linarith

/-- The dot product of a vector having a nonzero component with itself is
positive. -/
lemma dotp_self_pos (v : List ℝ) (h : ∃ x ∈ v, x ≠ 0) : 0 < dotp v v := by
  induction v with
  | nil => simp at h
  | cons a v ih =>
    simp only [dotp]
    rcases h with ⟨x, hx, hx0⟩
    rcases List.mem_cons.mp hx with rfl | hxv
    · have h1 := mul_self_pos.mpr hx0
      have h2 := dotp_self_nonneg v
      linarith
    · have h1 := ih ⟨x, hxv, hx0⟩
      have h2 := mul_self_nonneg a
      linarith

/-- Inductive step of the Cauchy-Schwarz inequality. -/
lemma cs_step (a b bigA bigB s : ℝ) (hA : 0 ≤ bigA) (hB : 0 ≤ bigB)
    (h : s ^ 2 ≤ bigA * bigB) :
    (a * b + s) ^ 2 ≤ (a * a + bigA) * (b * b + bigB) := by
  have h1 : (2 * a * b * s) ^ 2 ≤ (a ^ 2 * bigB + b ^ 2 * bigA) ^ 2 := by
    nlinarith [sq_nonneg (a ^ 2 * bigB - b ^ 2 * bigA),
      mul_nonneg (sq_nonneg (a * b)) (sub_nonneg.2 h)]
  have hP : 0 ≤ a ^ 2 * bigB + b ^ 2 * bigA :=
    add_nonneg (mul_nonneg (sq_nonneg a) hB) (mul_nonneg (sq_nonneg b) hA)
  have h2 : 2 * a * b * s ≤ a ^ 2 * bigB + b ^ 2 * bigA :=
    (abs_le_of_sq_le_sq' h1 hP).2
  nlinarith [h, h2]

/-- Cauchy-Schwarz for the list dot product. -/
lemma dotp_sq_le (v w : List ℝ) : (dotp v w) ^ 2 ≤ dotp v v * dotp w w := by
  induction v generalizing w with
  | nil => simp [dotp]
  | cons a v ih => cases w with
    | nil => simp [dotp]
    | cons b w =>
      simp only [dotp]
      exact cs_step a b (dotp v v) (dotp w w) (dotp v w)
        (dotp_self_nonneg v) (dotp_self_nonneg w) (ih w)

/-- The norm vanishes exactly when the self dot product does. -/
lemma norm2_eq_zero_iff (v : List ℝ) : norm2 v = 0 ↔ dotp v v = 0 := by
  rw [norm2, Real.sqrt_eq_zero (dotp_self_nonneg v)]

/-- Norms are nonnegative. -/
lemma norm2_nonneg (v : List ℝ) : 0 ≤ norm2 v := Real.sqrt_nonneg _

/-- Extraction of the endpoint from any URL of the search shape. -/
lemma endpointOf_search (q t : String) :
    endpointOf (API_BASE ++ "/search?query=" ++ q ++ "&top_k=" ++ t) = "search" := by
  simp only [endpointOf, String.data_append, List.append_assoc]
  rw [show API_BASE.length + 1 = 22 from rfl]
  rw [List.drop_append_eq_append_drop]
  rw [show List.drop 22 API_BASE.data = [] from rfl]
  rw [show (22 - API_BASE.data.length) = 1 from rfl]
  rw [List.drop_append_eq_append_drop]
  rw [show List.drop 1 ("/search?query=".data) =
    's' :: 'e' :: 'a' :: 'r' :: 'c' :: 'h' :: '?' :: ("query=".data) from rfl]
  simp +decide [List.takeWhile_cons]

/-- Extraction of the endpoint from any URL of the download shape. -/
lemma endpointOf_download (t : String) :
    endpointOf (API_BASE ++ "/download_image/" ++ t) = "download_image" := by
  simp only [endpointOf, String.data_append, List.append_assoc]
  rw [show API_BASE.length + 1 = 22 from rfl]
  rw [List.drop_append_eq_append_drop]
  rw [show List.drop 22 API_BASE.data = [] from rfl]
  rw [show (22 - API_BASE.data.length) = 1 from rfl]
  rw [List.drop_append_eq_append_drop]
  rw [show List.drop 1 ("/download_image/".data) =
    'd' :: 'o' :: 'w' :: 'n' :: 'l' :: 'o' :: 'a' :: 'd' :: '_' :: 'i' :: 'm' ::
      'a' :: 'g' :: 'e' :: '/' :: ([] : List Char) from rfl]
  simp +decide [List.takeWhile_cons]

/-- The singleton key of the images query matches exactly the cached keys
whose head is that string. -/
lemma isPrefixOf_images (k : List String) :
    (["images"].isPrefixOf k) = true ↔ k.head? = some "images" := by
  cases k with
  | nil => simp [List.isPrefixOf]
  | cons h t =>
    simp [List.isPrefixOf]
    exact eq_comm

/-- Pointwise description of invalidateQueries on the images key. -/
lemma getD_invalidate (l : List CacheEntry) (i : Nat) :
    (invalidateQueries ["images"] l).getD i noEntry =
      (if ["images"].isPrefixOf (l.getD i noEntry).key
       then { l.getD i noEntry with invalidated := true }
       else l.getD i noEntry) := by
  induction l generalizing i with
  | nil => simp +decide [invalidateQueries, noEntry]
  | cons e l ih => cases i with
    | zero => simp [invalidateQueries]
    | succ n =>
      have := ih n
      simpa [invalidateQueries] using this

/-- Evaluation of part_000's onSuccess handler: the toast succeeds, so the
invalidation and resets run and the handler returns normally. -/
lemma part000_addImageOnSuccess_eq (s : ClientState) :
    Part000.addImageOnSuccess s =
      Except.ok ({ s with cache := invalidateQueries ["images"] s.cache,
                          uploadFile := none, uploadDescription := "" },
        [Effect.toastSuccess "Image added successfully!"]) := rfl

/-- Evaluation of page.tsx's onSuccess handler: the toast stub throws, so
the handler exits exceptionally before the invalidation and resets. -/
lemma pagetsx_addImageOnSuccess_eq (s : ClientState) :
    PageTsx.addImageOnSuccess s =
      Except.error "TypeError: toast.success is not a function" := rfl

/-- Evaluation of part_000's handleUpload on a state with no selected file:
the error toast is delivered and the state is returned unchanged. -/
lemma part000_handleUpload_none (s : ClientState) (h : s.uploadFile = none) :
    Part000.handleUpload s =
      Except.ok (s, [Effect.toastError "Please select a file to upload"]) := by
  rw [Part000.handleUpload, h]
  rfl

/-- Evaluation of page.tsx's handleUpload on a state with no selected file:
the toast stub throws. -/
lemma pagetsx_handleUpload_none (s : ClientState) (h : s.uploadFile = none) :
    PageTsx.handleUpload s =
      Except.error "TypeError: toast.error is not a function" := by
  rw [PageTsx.handleUpload, h]
  rfl

/- ## Claim theorems -/

/-- Claim C1: every network call made by fetchImages, searchImages, addImage
and downloadImage — in both source files — targets one of the four endpoint
paths list_images, search, add_image, download_image under API_BASE and no
other endpoint. -/
theorem c1_client_targets_four_endpoints :
    endpointOf PageTsx.fetchImagesRequest.url = "list_images"
    ∧ (∀ q k, endpointOf (PageTsx.searchImagesRequest q k).url = "search")
    ∧ (∀ f d, endpointOf (PageTsx.addImageRequest f d).url = "add_image")
    ∧ (∀ i, endpointOf (PageTsx.downloadImageRequest i).url = "download_image")
    ∧ endpointOf Part000.fetchImagesRequest.url = "list_images"
    ∧ (∀ q k, endpointOf (Part000.searchImagesRequest q k).url = "search")
    ∧ (∀ f d, endpointOf (Part000.addImageRequest f d).url = "add_image")
    ∧ (∀ i, endpointOf (Part000.downloadImageRequest i).url = "download_image") :=
  ⟨by rfl, fun _ _ => endpointOf_search _ _, fun _ _ => by rfl,
    fun _ => endpointOf_download _, by rfl, fun _ _ => endpointOf_search _ _,
    fun _ _ => by rfl, fun _ => endpointOf_download _⟩

/-- Claim C2: searchImages with no caller-supplied topK uses the default
value 5, sending the URL-encoded query text and top_k as the query
parameters of a GET to the search endpoint; this holds in both source
files. -/
theorem c2_search_topk_defaults_to_five :
    (∀ q, PageTsx.searchImagesRequest q none = PageTsx.searchImagesRequest q (some 5))
    ∧ (∀ q k, PageTsx.searchImagesRequest q (some k) =
        { url := API_BASE ++ "/search?query=" ++ encodeURIComponent q ++
            "&top_k=" ++ toString k,
          method := HttpMethod.GET, body := HttpBody.empty })
    ∧ (∀ q, (PageTsx.searchImagesRequest q none).url =
        API_BASE ++ "/search?query=" ++ encodeURIComponent q ++ "&top_k=" ++ "5")
    ∧ (∀ q, Part000.searchImagesRequest q none = Part000.searchImagesRequest q (some 5)) :=
  ⟨fun _ => rfl, fun _ _ => rfl, fun _ => rfl, fun _ => rfl⟩

/-- Claim C3: addImage sends a POST multipart form to the add_image endpoint
with the image bytes under field image and the (possibly empty) description
under field description, and on a successful response returns the parsed
body at the Image type, whose description field is optional; this holds in
both source files. -/
theorem c3_add_image_multipart_form :
    (∀ f d, PageTsx.addImageRequest f d =
        { url := API_BASE ++ "/add_image", method := HttpMethod.POST,
          body := HttpBody.formData
            [("image", FormValue.file f), ("description", FormValue.text d)] })
    ∧ (∀ resp : JsResponse Image, resp.ok = true →
        PageTsx.addImageHandle resp = Except.ok resp.jsonBody)
    ∧ (∀ f d, Part000.addImageRequest f d = PageTsx.addImageRequest f d)
    ∧ (∀ resp : JsResponse Image, resp.ok = true →
        Part000.addImageHandle resp = Except.ok resp.jsonBody) := by
  refine ⟨fun _ _ => rfl, ?_, fun _ _ => rfl, ?_⟩ <;>
    exact fun resp h => by
      simp [PageTsx.addImageHandle, Part000.addImageHandle,
        PageTsx.handleResponse, Part000.handleResponse, h]

/-- Witness for claim C3 at a concrete successful response. -/
theorem c3_add_image_multipart_form_witness :
    PageTsx.addImageHandle
        { ok := true, textBody := "",
          jsonBody := { id := 1, filename := "a.png", description := none },
          blobBody := [] } =
      Except.ok { id := 1, filename := "a.png", description := none } :=
  c3_add_image_multipart_form.2.1
    { ok := true, textBody := "",
      jsonBody := { id := 1, filename := "a.png", description := none },
      blobBody := [] } rfl

/-- Claim C4: downloadImage fetches download_image with the id appended; on
an ok response it returns the raw response body as a blob (independent of
any JSON view of the body), and on a non-ok response it throws the
response's error text, or the fixed fallback message when that text is
empty, and never returns data. -/
theorem c4_download_image_raw_blob :
    (∀ i : Int, PageTsx.downloadImageRequest i =
        { url := API_BASE ++ "/download_image/" ++ toString i,
          method := HttpMethod.GET, body := HttpBody.empty })
    ∧ (∀ (α : Type) (resp : JsResponse α), resp.ok = true →
        PageTsx.downloadImageHandle resp = Except.ok resp.blobBody)
    ∧ (∀ (α : Type) (resp : JsResponse α) (j : α),
        PageTsx.downloadImageHandle { resp with jsonBody := j } =
          PageTsx.downloadImageHandle resp)
    ∧ (∀ (α : Type) (resp : JsResponse α), resp.ok = false → resp.textBody ≠ "" →
        PageTsx.downloadImageHandle resp = Except.error resp.textBody)
    ∧ (∀ (α : Type) (resp : JsResponse α), resp.ok = false → resp.textBody = "" →
        PageTsx.downloadImageHandle resp = Except.error "Failed to download image")
    ∧ (∀ (α : Type) (resp : JsResponse α) (b : List Nat), resp.ok = false →
        PageTsx.downloadImageHandle resp ≠ Except.ok b)
    ∧ (∀ i : Int, Part000.downloadImageRequest i = PageTsx.downloadImageRequest i)
    ∧ (∀ (α : Type) (resp : JsResponse α), resp.ok = true →
        Part000.downloadImageHandle resp = Except.ok resp.blobBody) := by
  refine ⟨fun _ => rfl, ?_, ?_, ?_, ?_, ?_, fun _ => rfl, ?_⟩
  · intro α resp h
    simp [PageTsx.downloadImageHandle, h]
  · intro α resp j
    rfl
  · intro α resp h h2
    simp [PageTsx.downloadImageHandle, h, h2]
  · intro α resp h h2
    simp [PageTsx.downloadImageHandle, h, h2]
  · intro α resp b h
    simp [PageTsx.downloadImageHandle, h]
  · intro α resp h
    simp [Part000.downloadImageHandle, h]

/-- Witness for claim C4 at concrete responses: a successful download, a
failure with error text, and a failure with empty error text. -/
theorem c4_download_image_raw_blob_witness :
    @PageTsx.downloadImageHandle Unit
        { ok := true, textBody := "", jsonBody := (), blobBody := [7, 8] } =
      Except.ok [7, 8]
    ∧ @PageTsx.downloadImageHandle Unit
        { ok := false, textBody := "missing", jsonBody := (), blobBody := [] } =
      Except.error "missing"
    ∧ @PageTsx.downloadImageHandle Unit
        { ok := false, textBody := "", jsonBody := (), blobBody := [] } =
      Except.error "Failed to download image" :=
  ⟨c4_download_image_raw_blob.2.1 Unit _ rfl,
   c4_download_image_raw_blob.2.2.2.1 Unit _ rfl (by decide),
   c4_download_image_raw_blob.2.2.2.2.1 Unit _ rfl rfl⟩

/-- Claim C5: search returns exactly min(k, size()) results — at most k, and
all stored entries when fewer than k exist, never an error for
under-population — sorted by descending similarity with ties broken by
ascending id. -/
theorem c5_search_returns_min_k_sorted :
    (∀ entries q k, (searchIndex entries q k).length = min k entries.length)
    ∧ (∀ entries q k, List.Sorted resultOrder (searchIndex entries q k))
    ∧ (∀ entries q k, entries.length ≤ k →
        List.Perm (searchIndex entries q k)
          (entries.map (fun e => (e.id, cosineSim q e.vec)))) := by
  refine ⟨?_, ?_, ?_⟩
  · intro entries q k
    simp [searchIndex, List.length_take, List.length_insertionSort, List.length_map]
  · intro entries q k
    exact List.Pairwise.sublist (List.take_sublist k _)
      (List.sorted_insertionSort resultOrder _)
  · intro entries q k h
    rw [searchIndex, List.take_of_length_le
      (by rw [List.length_insertionSort, List.length_map]; exact h)]
    exact List.perm_insertionSort _ _

/-- Witness for claim C5 at the empty index: under-population returns all
entries. -/
theorem c5_search_returns_min_k_sorted_witness :
    ([] : List IndexEntry).length ≤ 0
    ∧ List.Perm (searchIndex [] [] 0)
        (([] : List IndexEntry).map (fun e => (e.id, cosineSim [] e.vec))) :=
  ⟨by simp, c5_search_returns_min_k_sorted.2.2 [] [] 0 (by simp)⟩

/-- Claim C6: cosine similarity is symmetric, equals 1 on any vector with a
nonzero component, always lies in the interval from -1 to 1, and is 0 (not
an error) when either norm is zero. -/
theorem c6_cosine_symmetric_reflexive_bounded :
    (∀ v w, cosineSim v w = cosineSim w v)
    ∧ (∀ v : List ℝ, (∃ x ∈ v, x ≠ 0) → cosineSim v v = 1)
    ∧ (∀ v w, -1 ≤ cosineSim v w ∧ cosineSim v w ≤ 1)
    ∧ (∀ v w, norm2 v = 0 ∨ norm2 w = 0 → cosineSim v w = 0) := by
  refine ⟨?_, ?_, ?_, ?_⟩
  · intro v w
    by_cases hv : norm2 v = 0 <;> by_cases hw : norm2 w = 0 <;>
      simp [cosineSim, hv, hw, dotp_comm v w, mul_comm (norm2 w) (norm2 v)]
  · intro v h
    have hpos : 0 < dotp v v := dotp_self_pos v h
    have hn : ¬ norm2 v = 0 := fun h0 => absurd ((norm2_eq_zero_iff v).mp h0) hpos.ne'
    have hcond : ¬ (norm2 v = 0 ∨ norm2 v = 0) := by simp [hn]
    simp only [cosineSim, if_neg hcond]
    rw [norm2, Real.mul_self_sqrt (dotp_self_nonneg v)]
    exact div_self hpos.ne'
  · intro v w
    by_cases h : norm2 v = 0 ∨ norm2 w = 0
    · simp only [cosineSim, if_pos h]
      norm_num
    · push_neg at h
      obtain ⟨hv, hw⟩ := h
      have hvpos : 0 < norm2 v := lt_of_le_of_ne (norm2_nonneg v) (Ne.symm hv)
      have hwpos : 0 < norm2 w := lt_of_le_of_ne (norm2_nonneg w) (Ne.symm hw)
      have hprod : 0 < norm2 v * norm2 w := mul_pos hvpos hwpos
      have h1 : (dotp v w) ^ 2 ≤ (norm2 v * norm2 w) ^ 2 := by
        rw [mul_pow, norm2, norm2, Real.sq_sqrt (dotp_self_nonneg v),
          Real.sq_sqrt (dotp_self_nonneg w)]
        exact dotp_sq_le v w
      have h2 := abs_le_of_sq_le_sq' h1 hprod.le
      have hcos : cosineSim v w = dotp v w / (norm2 v * norm2 w) := by
        simp [cosineSim, hv, hw]
      constructor
      · rw [hcos, le_div_iff₀ hprod]
        linarith [h2.1]
      · rw [hcos, div_le_one hprod]
        exact h2.2
  · intro v w h
    simp [cosineSim, h]

/-- Witness for claim C6 at concrete vectors: a unit vector has similarity 1
with itself, and a zero-norm vector yields similarity 0. -/
theorem c6_cosine_symmetric_reflexive_bounded_witness :
    cosineSim [(1 : ℝ)] [(1 : ℝ)] = 1 ∧ cosineSim [(0 : ℝ)] [(1 : ℝ)] = 0 :=
  ⟨c6_cosine_symmetric_reflexive_bounded.2.1 [(1 : ℝ)] ⟨1, by simp, one_ne_zero⟩,
   c6_cosine_symmetric_reflexive_bounded.2.2.2 [(0 : ℝ)] [(1 : ℝ)]
     (Or.inl (by simp [norm2, dotp]))⟩

/-- Claim C7, amended: after a successful add_image mutation, part_000's
client — where toast is the real sonner import — always completes its
onSuccess handler, and doing so clears the selected upload file and the
description text, leaves the search text untouched, preserves the cache
length, toasts success, marks the cache entry under the images key
invalidated with its data preserved, and leaves every entry under any other
key unchanged; in page.tsx the onSuccess handler throws at the toast stub
first, so there it never completes and nothing is invalidated or reset. -/
theorem c7_add_success_invalidates_images_key :
    (∀ s, ∃ r, Part000.addImageOnSuccess s = Except.ok r)
    ∧ (∀ s s1 effs, Part000.addImageOnSuccess s = Except.ok (s1, effs) →
        s1.uploadFile = none ∧ s1.uploadDescription = ""
        ∧ s1.searchQueryText = s.searchQueryText
        ∧ s1.cache.length = s.cache.length
        ∧ effs = [Effect.toastSuccess "Image added successfully!"])
    ∧ (∀ s i s1 effs, (s.cache.getD i noEntry).key.head? = some "images" →
        Part000.addImageOnSuccess s = Except.ok (s1, effs) →
        s1.cache.getD i noEntry = { s.cache.getD i noEntry with invalidated := true })
    ∧ (∀ s i s1 effs, (s.cache.getD i noEntry).key.head? ≠ some "images" →
        Part000.addImageOnSuccess s = Except.ok (s1, effs) →
        s1.cache.getD i noEntry = s.cache.getD i noEntry)
    ∧ (∀ s r, PageTsx.addImageOnSuccess s ≠ Except.ok r) := by
  refine ⟨?_, ?_, ?_, ?_, ?_⟩
  · intro s
    exact ⟨_, part000_addImageOnSuccess_eq s⟩
  · intro s s1 effs heq
    rw [part000_addImageOnSuccess_eq] at heq
    injection heq with hpair
    injection hpair with hs he
    subst hs
    subst he
    refine ⟨rfl, rfl, rfl, ?_, rfl⟩
    simp [invalidateQueries]
  · intro s i s1 effs h heq
    rw [part000_addImageOnSuccess_eq] at heq
    injection heq with hpair
    injection hpair with hs he
    subst hs
    show (invalidateQueries ["images"] s.cache).getD i noEntry = _
    rw [getD_invalidate, if_pos ((isPrefixOf_images _).mpr h)]
  · intro s i s1 effs h heq
    rw [part000_addImageOnSuccess_eq] at heq
    injection heq with hpair
    injection hpair with hs he
    subst hs
    show (invalidateQueries ["images"] s.cache).getD i noEntry = _
    rw [getD_invalidate, if_neg (fun hc => h ((isPrefixOf_images _).mp hc))]
  · intro s r h
    rw [pagetsx_addImageOnSuccess_eq] at h
    simp at h

/-- Counterexample to claim C7 as frozen: at a concrete state, page.tsx's
onSuccess handler for a successful add_image mutation throws the TypeError
of the toast stub (page.tsx line 17), producing no updated state — so in
that cited source nothing is invalidated and no field is reset. -/
theorem c7_pagetsx_onsuccess_throws :
    PageTsx.addImageOnSuccess sampleState =
      Except.error "TypeError: toast.success is not a function" := rfl

/-- Witness for claim C7: in part_000, on a two-entry cache, the completed
handler's state has the images entry marked invalidated. -/
theorem c7_add_success_invalidates_images_key_witness :
    ({ searchQueryText := sampleState.searchQueryText, uploadFile := none,
       uploadDescription := "",
       cache := invalidateQueries ["images"] sampleState.cache } :
         ClientState).cache.getD 0 noEntry =
      { key := ["images"], invalidated := true } :=
  c7_add_success_invalidates_images_key.2.2.1 sampleState 0
    { searchQueryText := sampleState.searchQueryText, uploadFile := none,
      uploadDescription := "",
      cache := invalidateQueries ["images"] sampleState.cache }
    [Effect.toastSuccess "Image added successfully!"] rfl rfl

/-- Claim C8: the API layers of the two source files are extensionally
equivalent: handleResponse and the four API functions construct the same
requests and transform responses identically. -/
theorem c8_api_layers_extensionally_equal :
    (∀ (α : Type) (resp : JsResponse α),
        PageTsx.handleResponse resp = Part000.handleResponse resp)
    ∧ PageTsx.fetchImagesRequest = Part000.fetchImagesRequest
    ∧ (∀ resp, PageTsx.fetchImagesHandle resp = Part000.fetchImagesHandle resp)
    ∧ (∀ q k, PageTsx.searchImagesRequest q k = Part000.searchImagesRequest q k)
    ∧ (∀ resp, PageTsx.searchImagesHandle resp = Part000.searchImagesHandle resp)
    ∧ (∀ f d, PageTsx.addImageRequest f d = Part000.addImageRequest f d)
    ∧ (∀ resp, PageTsx.addImageHandle resp = Part000.addImageHandle resp)
    ∧ (∀ i, PageTsx.downloadImageRequest i = Part000.downloadImageRequest i)
    ∧ (∀ (α : Type) (resp : JsResponse α),
        PageTsx.downloadImageHandle resp = Part000.downloadImageHandle resp) :=
  ⟨fun _ _ => rfl, rfl, fun _ => rfl, fun _ _ => rfl, fun _ => rfl,
    fun _ _ => rfl, fun _ => rfl, fun _ => rfl, fun _ _ => rfl⟩

/-- Claim C9, amended: with an empty search query text the search query is
disabled, so react-query issues no automatic search request, and an
automatic request implies a non-empty text; the Search button's manual
refetch, however, runs the queryFn even for a disabled query and issues the
searchImages request for the current — possibly empty — text. -/
theorem c9_empty_query_disables_search :
    (∀ s, s.searchQueryText = "" → searchQueryEnabled s = false)
    ∧ (∀ s, s.searchQueryText = "" → autoSearchRequest s = none)
    ∧ (∀ s r, autoSearchRequest s = some r →
        s.searchQueryText ≠ ""
        ∧ r = PageTsx.searchImagesRequest s.searchQueryText none)
    ∧ (∀ s, clickSearchRequest s =
        PageTsx.searchImagesRequest s.searchQueryText none) := by
  refine ⟨?_, ?_, ?_, fun _ => rfl⟩
  · intro s h
    simp [searchQueryEnabled, h]
  · intro s h
    simp [autoSearchRequest, searchQueryEnabled, h]
  · intro s r h
    by_cases he : s.searchQueryText = ""
    · rw [autoSearchRequest] at h
      simp [searchQueryEnabled, he] at h
    · refine ⟨he, ?_⟩
      rw [autoSearchRequest] at h
      simp [searchQueryEnabled, he] at h
      exact h.symm

/-- Counterexample to claim C9 as frozen: at a concrete state whose query
text is empty, clicking Search issues a search HTTP request — refetch runs
the queryFn despite the disabled flag — with the empty encoded query and
the default top_k of 5. -/
theorem c9_click_issues_search_on_empty_text :
    clickSearchRequest sampleState = PageTsx.searchImagesRequest "" none
    ∧ (clickSearchRequest sampleState).url =
        "http://localhost:5000/search?query=&top_k=5"
    ∧ endpointOf (clickSearchRequest sampleState).url = "search" :=
  ⟨rfl, rfl, rfl⟩

/-- Witness for claim C9: the concrete empty-text state issues no automatic
request, and a concrete non-empty state issues exactly the searchImages
request for its text. -/
theorem c9_empty_query_disables_search_witness :
    autoSearchRequest sampleState = none
    ∧ ("cat" : String) ≠ ""
    ∧ PageTsx.searchImagesRequest "cat" none =
        PageTsx.searchImagesRequest catState.searchQueryText none :=
  ⟨c9_empty_query_disables_search.2.1 sampleState rfl,
   by decide,
   (c9_empty_query_disables_search.2.2.1 catState
     (PageTsx.searchImagesRequest "cat" none) rfl).2⟩

/-- Claim C10, amended: invoking handleUpload with no selected file performs
no mutation in either file — the state never changes and no add-image
mutation effect can be emitted; in part_000 the handler reports the error
toast and returns normally, while in page.tsx the toast.error call on the
stub throws a TypeError, so no error reaches the user and the handler exits
exceptionally, still without mutating. -/
theorem c10_upload_without_file_no_mutation :
    (∀ s, s.uploadFile = none →
      Part000.handleUpload s =
        Except.ok (s, [Effect.toastError "Please select a file to upload"]))
    ∧ (∀ s s1 effs f d, s.uploadFile = none →
        Part000.handleUpload s = Except.ok (s1, effs) →
        s1 = s ∧ Effect.mutateAdd f d ∉ effs)
    ∧ (∀ s, s.uploadFile = none →
        PageTsx.handleUpload s =
          Except.error "TypeError: toast.error is not a function")
    ∧ (∀ s r, s.uploadFile = none → PageTsx.handleUpload s ≠ Except.ok r) := by
  refine ⟨?_, ?_, ?_, ?_⟩
  · intro s h
    exact part000_handleUpload_none s h
  · intro s s1 effs f d h heq
    rw [part000_handleUpload_none s h] at heq
    injection heq with hpair
    injection hpair with hs he
    subst he
    exact ⟨hs.symm, by simp⟩
  · intro s h
    exact pagetsx_handleUpload_none s h
  · intro s r h heq
    rw [pagetsx_handleUpload_none s h] at heq
    simp at heq

/-- Counterexample to claim C10 as frozen: at a concrete state with no
selected file, page.tsx's handleUpload throws the TypeError of the toast
stub (page.tsx line 17) instead of reporting an error to the user. -/
theorem c10_pagetsx_handleupload_throws :
    PageTsx.handleUpload sampleState =
      Except.error "TypeError: toast.error is not a function" := rfl

/-- Witness for claim C10: part_000's handleUpload at a concrete no-file
state returns the state unchanged with only the error toast effect. -/
theorem c10_upload_without_file_no_mutation_witness :
    Part000.handleUpload sampleState =
      Except.ok (sampleState, [Effect.toastError "Please select a file to upload"]) :=
  c10_upload_without_file_no_mutation.1 sampleState rfl
